import Mathlib

/-!
Verification of the reindex action, schema checker and their error handling,
against the natural-language specification of this repository.

The Python code is shallowly embedded: dynamically typed Python values become
the inductive `PyVal`, exceptions become the `CuratorErr` sum carried in
`Except`, and the mutable `Reindex` object becomes the record `ReindexState`
threaded explicitly through the methods that mutate it.  Network interaction
(the Elasticsearch client, the remote-cluster connection, the schema library)
is abstracted as oracle functions supplied by the caller; where a claim needs
"no network happens" we either quantify over all oracle behaviours or record
observable events in an explicit effect trace.
-/

namespace Curator

/-- A Python value, as far as the embedded code needs: strings, ints, bools,
`None`, lists and string-keyed dicts (configuration dictionaries parsed from
YAML are string-keyed). -/
inductive PyVal where
  | str (s : String)
  | int (n : Int)
  | bool (b : Bool)
  | none
  | list (xs : List PyVal)
  | dict (kvs : List (String × PyVal))

/-- The exception taxonomy of the embedded code: curator's own exception
classes plus the builtin Python exceptions the code can raise. -/
inductive CuratorErr where
  | configurationError (msg : String)
  | noIndices (msg : String)
  | failedExecution (msg : String)
  | curatorException (msg : String)
  | timeoutExceeded (msg : String)
  | keyError (key : String)
  | typeError (msg : String)
  | indexError
  | attributeError (name : String)
  | otherExc (msg : String)
deriving DecidableEq

/-- Message rendering of an exception, as `f'{exc}'` would produce; used where
the code interpolates a caught exception into a new message. -/
def curatorErrStr : CuratorErr → String
  | .configurationError m => m
  | .noIndices m => m
  | .failedExecution m => m
  | .curatorException m => m
  | .timeoutExceeded m => m
  | .keyError k => "'" ++ k ++ "'"
  | .typeError m => m
  | .indexError => "list index out of range"
  | .attributeError n => "no attribute '" ++ n ++ "'"
  | .otherExc m => m

/-- Python `repr` for the values above, approximated for quote-free ASCII
content (sufficient for every message the claims look at). -/
def pyRepr : PyVal → String
  | .str s => "'" ++ s ++ "'"
  | .int n => toString n
  | .bool b => if b then "True" else "False"
  | .none => "None"
  | .list xs => "[" ++ pyReprSeq xs ++ "]"
  | .dict kvs => "\x7b" ++ pyReprKVs kvs ++ "\x7d"
where
  pyReprSeq : List PyVal → String
    | [] => ""
    | [x] => pyRepr x
    | x :: xs => pyRepr x ++ ", " ++ pyReprSeq xs
  pyReprKVs : List (String × PyVal) → String
    | [] => ""
    | [(k, v)] => "'" ++ k ++ "': " ++ pyRepr v
    | (k, v) :: xs => "'" ++ k ++ "': " ++ pyRepr v ++ ", " ++ pyReprKVs xs

/-- Python `str`: like `repr` except strings print bare. -/
def pyStr : PyVal → String
  | .str s => s
  | v => pyRepr v

/-- Test whether a value is the given string literal (Python `== 'lit'` against
a string literal: only an equal `str` compares equal in the embedded code). -/
def pyBeqStr (v : PyVal) (s : String) : Bool :=
  match v with
  | .str t => t == s
  | _ => false

/-- Python `== 0` for the processed-items count (an `int` in every reachable
payload; Python would also equate `False`, which the embedding mirrors). -/
def pyEqZero : PyVal → Bool
  | .int n => n == 0
  | .bool b => !b
  | _ => false

def PyVal.isDict : PyVal → Bool
  | .dict _ => true
  | _ => false

/-- Association-list lookup underlying dict subscription. -/
def lookupKV : List (String × PyVal) → String → Option PyVal
  | [], _ => Option.none
  | (k, v) :: rest, key => if k == key then some v else lookupKV rest key

/-- Association-list update underlying dict item assignment: replace in place,
else append. -/
def setKey : List (String × PyVal) → String → PyVal → List (String × PyVal)
  | [], k, v => [(k, v)]
  | (k1, v1) :: rest, k, v =>
      if k1 == k then (k, v) :: rest else (k1, v1) :: setKey rest k v

/-- Python `d[k]` for a string key: KeyError on a missing dict key, TypeError
when the receiver is not subscriptable by a string. -/
def pyDictGet : PyVal → String → Except CuratorErr PyVal
  | .dict kvs, k =>
      match lookupKV kvs k with
      | some v => .ok v
      | Option.none => .error (.keyError k)
  | .list _, _ => .error (.typeError "list indices must be integers or slices, not str")
  | _, _ => .error (.typeError "object is not subscriptable")

/-- Python `d[i]` for an int key, with negative indexing on lists; a
string-keyed dict raises KeyError for an int key. -/
def pyIntGet : PyVal → Int → Except CuratorErr PyVal
  | .list xs, i =>
      let j := if i < 0 then i + xs.length else i
      if j < 0 then .error .indexError
      else
        match xs.get? j.toNat with
        | some v => .ok v
        | Option.none => .error .indexError
  | .dict _, i => .error (.keyError (toString i))
  | _, _ => .error (.typeError "object is not subscriptable")

/-- Python `d[k] = v` on a nested object: TypeError unless the receiver is a
dict. -/
def pySetItem (d : PyVal) (k : String) (v : PyVal) : Except CuratorErr PyVal :=
  match d with
  | .dict kvs => .ok (.dict (setKey kvs k v))
  | _ => .error (.typeError "object does not support item assignment")

/-- Item assignment on a value already known to be a dict (used to model the
write-through of an alias whose dict-ness an earlier step established). -/
def pyDictSetK (d : PyVal) (k : String) (v : PyVal) : PyVal :=
  match d with
  | .dict kvs => .dict (setKey kvs k v)
  | other => other

/-- Python `d[k1][k2] = v`: fetch the inner object (KeyError if absent),
assign into it (TypeError if not a dict), and store the result back. -/
def pySet2 (d : PyVal) (k1 k2 : String) (v : PyVal) : Except CuratorErr PyVal :=
  match pyDictGet d k1 with
  | .error e => .error e
  | .ok inner =>
      match pySetItem inner k2 v with
      | .error e => .error e
      | .ok inner1 => .ok (pyDictSetK d k1 inner1)

/-- Contiguous-sublist test on character lists, for Python substring
membership. -/
def charsContain (needle : List Char) : List Char → Bool
  | [] => needle.isEmpty
  | c :: rest => needle.isPrefixOf (c :: rest) || charsContain needle rest

/-- Python `k in d` for a string: key membership on dicts, element membership
on lists, substring on strings, TypeError otherwise. -/
def pyContains (d : PyVal) (k : String) : Except CuratorErr Bool :=
  match d with
  | .dict kvs => .ok (kvs.any fun kv => kv.1 == k)
  | .list xs => .ok (xs.any fun x => pyBeqStr x k)
  | .str s => .ok (charsContain k.toList s.toList)
  | _ => .error (.typeError "argument of type is not iterable")

/-- Python negative-capable indexing into a list of strings (used on the
results of `str.split`). -/
def pyIdxStr (xs : List String) (i : Int) : Except CuratorErr String :=
  let j := if i < 0 then i + xs.length else i
  if j < 0 then .error .indexError
  else
    match xs.get? j.toNat with
    | some v => .ok v
    | Option.none => .error .indexError

/-- Embed a list of index names as the Python list-of-strings value. -/
def pyStrList (names : List String) : PyVal :=
  .list (names.map PyVal.str)

/-- Split a character list at every occurrence of a character satisfying `p`,
keeping empty pieces — the behaviour of Python `str.split(sep)` for a
one-character separator (every separator in the source is one character). -/
def splitChars (p : Char → Bool) : List Char → List (List Char)
  | [] => [[]]
  | x :: xs =>
      let r := splitChars p xs
      if p x then [] :: r
      else
        match r with
        | [] => [[x]]
        | g :: gs => (x :: g) :: gs

/-- Python `s.split(c)` for a one-character separator. -/
def pySplitChar (s : String) (c : Char) : List String :=
  (splitChars (fun x => x == c) s.toList).map (fun cs => String.mk cs)

/-- Python `s.split()` with no argument: whitespace runs separate tokens and
empty pieces are dropped. -/
def pySplitWs (s : String) : List String :=
  ((splitChars Char.isWhitespace s.toList).filter (fun cs => !cs.isEmpty)).map
    (fun cs => String.mk cs)

/-- Remove every occurrence of the given characters — the behaviour of
`re.sub` with a character class and an empty replacement. -/
def removeChars (bad : List Char) (s : String) : String :=
  String.mk (s.toList.filter (fun c => !bad.contains c))

/-- Modelled from the spec: the `IndexList` collaborator (its implementation is
not under src/); the reindex action only reads its `client` handle and its
current ordered selection `indices`. -/
structure IndexList where
  indices : List String

/-- Modelled from the spec: `iterate_filters` applies filter predicates that
only ever narrow the selection.  A single predicate stands in for the ordered
filter chain; narrowing is all the claims observe. -/
def IndexList.iterate_filters (ilo : IndexList) (keep : String → Bool) : IndexList :=
  ⟨ilo.indices.filter keep⟩

/-- Modelled from the spec: `report_failure` (curator.utils, not under src/)
wraps any exception into FailedExecution with contextual detail, so the caller
sees one failure type for anything unexpected. -/
def report_failure (e : CuratorErr) : CuratorErr :=
  .failedExecution
    ("Exception encountered.  Rerun with loglevel DEBUG and/or check Elasticsearch logs for more information. Exception: "
      ++ curatorErrStr e)

/-- The external es_client helper `ensure_list`: a non-list value becomes a
one-element list, a list is returned as is. -/
def ensure_list : PyVal → List PyVal
  | .list xs => xs
  | v => [v]

/-- Oracles standing in for the external pieces the constructor touches: URL
verification (es_client `verify_url_schema`, pure parsing), the remote
`Builder(...).connect()` round-trip, and building + filtering the remote
IndexList.  Construction-time theorems quantify over these, so any property
they state holds for every network behaviour. -/
structure RemoteEnv where
  verify_url : String → Except String String
  connect : Except String Unit
  remote_indices : Except CuratorErr (List String)

/-- The state of a constructed `Reindex` object: its instance variables, with
the attributes that only the remote branch assigns made optional. -/
structure ReindexState where
  body : PyVal
  index_list : IndexList
  refresh : Bool
  requests_per_second : Int
  slices : Int
  timeout : String
  wait_for_active_shards : PyVal
  wfc : Bool
  wait_interval : Int
  max_wait : Int
  mpfx : String
  msfx : String
  remote : Bool
  migration : Bool
  remote_host : Option String
  remote_port : Option String

/-- The remote section of `Reindex.__init__` (the `elif self.remote:` block):
require `host`, verify the URL, derive `remote_host`/`remote_port` from it,
and when the source index is the selection sentinel resolve the selection
through the separate remote connection, every failure of which is funnelled
through `report_failure`.  `base` is the state with all flags already set. -/
def reindexInitRemote (ilo : IndexList) (env : RemoteEnv)
    (request_body src : PyVal) (base : ReindexState) (srcIdx : PyVal) :
    Except CuratorErr ReindexState :=
  match pyDictGet src "remote" with
  | .error e => .error e
  | .ok remoted =>
  match pyContains remoted "host" with
  | .error e => .error e
  | .ok hasHost =>
  match hasHost with
  | false => .error (.configurationError "Missing remote \"host\"")
  | true =>
    match pyDictGet remoted "host" with
    | .error e => .error e
    | .ok hostv =>
    match hostv with
    | .str hostStr =>
      match env.verify_url hostStr with
      | .error exc => .error (.configurationError exc)
      | .ok hosts =>
        -- self.remote_host = hosts.split(':')[-2].split('/')[2]
        -- self.remote_port = hosts.split(':')[-1]
        match pyIdxStr (pySplitChar hosts ':') (-2) with
        | .error e => .error e
        | .ok hostPiece =>
        match pyIdxStr (pySplitChar hostPiece '/') 2 with
        | .error e => .error e
        | .ok rhost =>
        match pyIdxStr (pySplitChar hosts ':') (-1) with
        | .error e => .error e
        | .ok rport =>
        let base1 := { base with remote_host := some rhost, remote_port := some rport }
        match pyBeqStr srcIdx "REINDEX_SELECTION" with
        | true =>
          match env.connect with
          | .error exc => .error (report_failure (.otherExc exc))
          | .ok _ =>
            match env.remote_indices with
            | .error exc => .error (report_failure exc)
            | .ok rindices =>
              -- rio.empty_list_check() raising NoIndices becomes the inner
              -- FailedExecution, itself swallowed by the outer broad except
              -- and re-raised through report_failure
              match rindices.isEmpty with
              | true =>
                .error (report_failure (.failedExecution
                  "No actionable remote indices selected after applying filters."))
              | false =>
                match pySet2 request_body "source" "index" (pyStrList rindices) with
                | .error e => .error (report_failure e)
                | .ok body1 => .ok { base1 with body := body1 }
        | false => .ok base1
    | _ => .error (.typeError "remote host must be a string URL")

/-- The tail of `Reindex.__init__` after the flags are computed: the
migration-naming guard (which raises before `self.body['source']['index']` is
read), then the three-way branch on the selection sentinel and the remote
flag. -/
def reindexInitDispatch (ilo : IndexList) (env : RemoteEnv)
    (request_body src : PyVal) (remote migration : Bool) (mpfx msfx : String)
    (base : ReindexState) : Except CuratorErr ReindexState :=
  match migration && !remote && mpfx == "" && msfx == "", pyDictGet src "index" with
  | true, _ =>
    .error (.configurationError
      "MIGRATION can only be used locally with one or both of migration_prefix or migration_suffix.")
  | false, .error e => .error e
  | false, .ok srcIdx =>
    match pyBeqStr srcIdx "REINDEX_SELECTION" && !remote, remote with
    | true, _ =>
      match pySet2 request_body "source" "index" (pyStrList ilo.indices) with
      | .error e => .error e
      | .ok body1 => .ok { base with body := body1, remote := remote, migration := migration }
    | false, true =>
      reindexInitRemote ilo env request_body src
        { base with remote := remote, migration := migration } srcIdx
    | false, false => .ok { base with remote := remote, migration := migration }

/-- `Reindex.__init__`, translated check for check from the source.  The
`migration_prefix`/`migration_suffix` arguments keep their instance-variable
names `mpfx`/`msfx`; the certificate paths and `remote_filters` only feed the
opaque remote connection profile, absorbed into `env`.  The Python code
mutates `self.body` in place when substituting the selection sentinel; here
the substituted body is stored in the returned state. -/
def reindexInit (ilo : IndexList) (request_body : PyVal) (env : RemoteEnv)
    (refresh : Bool) (requests_per_second : Int) (slices : Int) (timeout : Int)
    (wait_for_active_shards : PyVal) (wait_for_completion : Bool)
    (max_wait : Int) (wait_interval : Int) (mpfx msfx : String) :
    Except CuratorErr ReindexState :=
  -- if not isinstance(request_body, dict): raise
  match request_body.isDict with
  | false => .error (.configurationError "\"request_body\" is not of type dictionary")
  | true =>
    let base : ReindexState :=
      { body := request_body, index_list := ilo, refresh := refresh,
        requests_per_second := requests_per_second, slices := slices,
        timeout := toString timeout ++ "s",
        wait_for_active_shards := wait_for_active_shards,
        wfc := wait_for_completion, wait_interval := wait_interval,
        max_wait := max_wait, mpfx := mpfx, msfx := msfx,
        remote := false, migration := false,
        remote_host := Option.none, remote_port := Option.none }
    -- remote detection: 'remote' in self.body['source']
    match pyDictGet request_body "source" with
    | .error e => .error e
    | .ok src =>
    match pyContains src "remote" with
    | .error e => .error e
    | .ok remote =>
    -- migration detection: self.body['dest']['index'] == 'MIGRATION'
    match pyDictGet request_body "dest" with
    | .error e => .error e
    | .ok destd =>
    match pyDictGet destd "index" with
    | .error e => .error e
    | .ok destIdx =>
    let migration := pyBeqStr destIdx "MIGRATION"
    reindexInitDispatch ilo env request_body src remote migration mpfx msfx base

/-- The stored-body projections the expansion reads. -/
def bodySourceIndex (st : ReindexState) : Except CuratorErr PyVal :=
  match pyDictGet st.body "source" with
  | .error e => .error e
  | .ok src => pyDictGet src "index"

def bodyDestIndex (st : ReindexState) : Except CuratorErr PyVal :=
  match pyDictGet st.body "dest" with
  | .error e => .error e
  | .ok destd => pyDictGet destd "index"

/-- The defensive sentinel-typo check of `sources`:
`source_list == ['REINDEX_SELECTED']`. -/
def isSelectedTypo : List PyVal → Bool
  | [v] => pyBeqStr v "REINDEX_SELECTED"
  | _ => false

/-- The migration fan-out loop of `sources`: each source name yields the pair
`(source, mpfx + source + msfx)`; a non-string source would make the Python
string concatenation raise TypeError. -/
def migrationPairs (mpfx msfx : String) : List PyVal → Except CuratorErr (List (PyVal × PyVal))
  | [] => .ok []
  | .str s :: rest =>
      match migrationPairs mpfx msfx rest with
      | .error e => .error e
      | .ok tail => .ok ((.str s, .str (mpfx ++ s ++ msfx)) :: tail)
  | _ :: _ => .error (.typeError "can only concatenate str (not other types) to str")

/-- `Reindex.sources`.  The Python generator raises NoIndices before its first
yield and otherwise produces a finite sequence fully determined by the stored
body, so it is embedded as the eagerly materialized list of pairs. -/
def Reindex.sources (st : ReindexState) : Except CuratorErr (List (PyVal × PyVal)) :=
  match bodyDestIndex st with
  | .error e => .error e
  | .ok dest =>
  match bodySourceIndex st with
  | .error e => .error e
  | .ok srcIdx =>
  let source_list := ensure_list srcIdx
  if source_list.isEmpty || isSelectedTypo source_list then
    .error (.noIndices "")
  else if !st.migration then
    .ok [(srcIdx, dest)]
  else
    migrationPairs st.mpfx st.msfx source_list

/-- `Reindex._get_request_body`: deep-copies the stored body and overrides the
copy's source/dest indices, so the state is returned unchanged. -/
def getRequestBody (st : ReindexState) (source dest : PyVal) :
    Except CuratorErr (PyVal × ReindexState) :=
  match pySet2 st.body "source" "index" source with
  | .error e => .error e
  | .ok body1 =>
  match pySet2 body1 "dest" "index" dest with
  | .error e => .error e
  | .ok body2 => .ok (body2, st)

/-- The key carry-over loop of `_get_reindex_args`:
`for keyname in [...]: if keyname in self.body: reindex_args[keyname] = self.body[keyname]`.
The copied values are references into the stored body. -/
def copyBodyKeys (body : PyVal) : List String → List (String × PyVal) →
    Except CuratorErr (List (String × PyVal))
  | [], args => .ok args
  | k :: rest, args =>
      match pyContains body k with
      | .error e => .error e
      | .ok b =>
          if b then
            match pyDictGet body k with
            | .error e => .error e
            | .ok v => copyBodyKeys body rest (setKey args k v)
          else copyBodyKeys body rest args

/-- `Reindex._get_reindex_args`.  `reindex_args['dest']` and
`reindex_args['source']` are the very dict objects stored in `self.body`, so
the two trailing index assignments write through the alias into the stored
body: the returned state carries the mutated body. -/
def getReindexArgs (st : ReindexState) (source dest : PyVal) :
    Except CuratorErr (PyVal × ReindexState) :=
  let args0 : List (String × PyVal) :=
    [("refresh", .bool st.refresh),
     ("requests_per_second", .int st.requests_per_second),
     ("slices", .int st.slices),
     ("timeout", .str st.timeout),
     ("wait_for_active_shards", st.wait_for_active_shards),
     ("wait_for_completion", .bool false)]
  match copyBodyKeys st.body ["dest", "source", "conflicts", "max_docs", "size", "_source", "script"] args0 with
  | .error e => .error e
  | .ok args1 =>
  -- reindex_args['dest']['index'] = dest
  match (match lookupKV args1 "dest" with
         | some v => Except.ok v
         | Option.none => Except.error (CuratorErr.keyError "dest")) with
  | .error e => .error e
  | .ok destObj =>
  match pySetItem destObj "index" dest with
  | .error e => .error e
  | .ok destObj1 =>
  let args2 := setKey args1 "dest" destObj1
  let body1 := pyDictSetK st.body "dest" destObj1
  -- reindex_args['source']['index'] = source
  match (match lookupKV args2 "source" with
         | some v => Except.ok v
         | Option.none => Except.error (CuratorErr.keyError "source")) with
  | .error e => .error e
  | .ok srcObj =>
  match pySetItem srcObj "index" source with
  | .error e => .error e
  | .ok srcObj1 =>
  let args3 := setKey args2 "source" srcObj1
  let body2 := pyDictSetK body1 "source" srcObj1
  .ok (.dict args3, { st with body := body2 })

/-- Observable events of the verification path: informational/error logs and
the queries issued to the cluster. -/
inductive Effect where
  | netTasksGet
  | netIndexExists (name : String)
  | netAliasExists (name : String)
  | logInfo (msg : String)
  | logError (msg : String)
  | logErrorRemoteHint (host port : String)
deriving DecidableEq

/-- The cluster client as an oracle: each call site of the embedded code gets
the answer this structure prescribes. -/
structure Client where
  tasksGet : PyVal → Except CuratorErr PyVal
  indexExists : PyVal → Bool
  aliasExists : PyVal → Bool
  reindexCall : PyVal → Except CuratorErr PyVal
  waitResult : PyVal → Except CuratorErr Unit

/-- `Reindex.get_processed_items`: read `response.total` from the task payload,
`-1` when absent; any failure of the tasks call is wrapped as CuratorException. -/
def getProcessedItems (client : Client) (task_id : PyVal) :
    List Effect × Except CuratorErr PyVal :=
  match client.tasksGet task_id with
  | .error exc =>
      ([.netTasksGet], .error (.curatorException
        ("Unable to obtain task information for task_id \"" ++ pyStr task_id
          ++ "\". Exception " ++ curatorErrStr exc)))
  | .ok task_data =>
      ([.netTasksGet],
        match pyDictGet task_data "task" with
        | .error e => .error e
        | .ok task =>
        match pyDictGet task "action" with
        | .error e => .error e
        | .ok act =>
        if pyBeqStr act "indices:data/write/reindex" then
          match pyContains task_data "response" with
          | .error e => .error e
          | .ok hasResp =>
            if hasResp then
              match pyDictGet task_data "response" with
              | .error e => .error e
              | .ok response => pyDictGet response "total"
            else .ok (.int (-1))
        else .ok (.int (-1)))

/-- `Reindex._post_run_quick_check`: skip the existence check (with an info
log) exactly when the processed count is zero; otherwise query index and alias
existence and fail with FailedExecution when neither exists, after logging the
remote whitelist hint when the action was remote. -/
def postRunQuickCheck (client : Client) (st : ReindexState)
    (index_name task_id : PyVal) : List Effect × Except CuratorErr Unit :=
  match getProcessedItems client task_id with
  | (tr, .error e) => (tr, .error e)
  | (tr, .ok processed) =>
    if pyEqZero processed then
      (tr ++ [.logInfo ("No items were processed. Will not check if target index \""
        ++ pyStr index_name ++ "\" exists")], .ok ())
    else
      let ie := client.indexExists index_name
      let ae := client.aliasExists index_name
      let tr2 := tr ++ [.netIndexExists (pyStr index_name), .netAliasExists (pyStr index_name)]
      if !ie && !ae then
        let tr3 := tr2 ++ [.logError
          ("The index described as \"" ++ pyStr index_name
            ++ "\" was not found after the reindex operation. Check Elasticsearch logs for more information.")]
        let failMsg := "Reindex failed. The index or alias identified by \""
          ++ pyStr index_name ++ "\" was not found."
        if st.remote then
          match st.remote_host, st.remote_port with
          | some h, some p =>
              (tr3 ++ [.logErrorRemoteHint h p], .error (.failedExecution failMsg))
          | _, _ => (tr3, .error (.attributeError "remote_host"))
        else (tr3, .error (.failedExecution failMsg))
      else (tr2, .ok ())

/-- Modelled from the spec: `wait_for_it` (curator.utils, not under src/)
polls the task until completion within the wait budget; it returns normally on
completion and fails with the distinct timed-out condition when the budget
elapses.  The polling outcome is the client oracle's answer for the task. -/
def wait_for_it (client : Client) (task_id : PyVal)
    (wait_interval max_wait : Int) : Except CuratorErr Unit :=
  client.waitResult task_id

/-- The per-pair loop body of `Reindex.do_action`, threading the state because
`_get_reindex_args` mutates the stored body.  The debug call evaluates
`show_run_args`, hence `_get_request_body`, so its failures propagate too. -/
def doActionLoop (client : Client) : ReindexState → List (PyVal × PyVal) →
    Except CuratorErr Unit
  | _, [] => .ok ()
  | st, (source, dest) :: rest =>
      match getRequestBody st source dest with
      | .error e => .error e
      | .ok _ =>
      match getReindexArgs st source dest with
      | .error e => .error e
      | .ok (args, st1) =>
      match client.reindexCall args with
      | .error e => .error e
      | .ok response =>
      match pyDictGet response "task" with
      | .error e => .error e
      | .ok task_id =>
      if st.wfc then
        match wait_for_it client task_id st.wait_interval st.max_wait with
        | .error e => .error e
        | .ok _ =>
        match (postRunQuickCheck client st1 dest task_id).2 with
        | .error e => .error e
        | .ok _ => doActionLoop client st1 rest
      else doActionLoop client st1 rest

/-- `Reindex.do_action`: run the expansion, re-raise NoIndices with the
clarified message, and funnel every other exception through `report_failure`. -/
def doAction (client : Client) (st : ReindexState) : Except CuratorErr Unit :=
  let attempt : Except CuratorErr Unit :=
    match Reindex.sources st with
    | .error e => .error e
    | .ok pairs => doActionLoop client st pairs
  match attempt with
  | .ok _ => .ok ()
  | .error (.noIndices _) =>
      .error (.noIndices "Source index must be list of actual indices. It must not be an empty list.")
  | .error e => .error (report_failure e)

/-! ## SchemaCheck (src/curator/validators/schemacheck.py) -/

/-- A failure reported by the external voluptuous validator: `err.errors` (the
first entry is preferred) and the rendering `f'{err}'` used as fallback when
`errors[0]` cannot be read. -/
structure SchemaErr where
  errors : List String
  full : String

/-- The `self.error = err.errors[0]` assignment with its fallback
`except` arm. -/
def schemaErrMessage (err : SchemaErr) : String :=
  match err.errors with
  | [] => err.full
  | m :: _ => m

/-- The element extraction of `get_badvalue`:
`re.sub(r'[\x27\x5d]', '', data_string).split('[')` with the leading `data`
element popped. -/
def parsePathElements (data_string : String) : List String :=
  (pySplitChar (removeChars ['\'', ']'] data_string) '[').tail

/-- Parse a run of ASCII digits; `none` when empty or a non-digit appears —
the success/ValueError behaviour of Python `int()` on path segments. -/
def parseDigits : List Char → Nat → Option Nat
  | [], acc => some acc
  | c :: rest, acc =>
      if c.isDigit then parseDigits rest (acc * 10 + (c.toNat - 48))
      else Option.none

/-- Python `int(k)` as used on path segments: optional sign then digits. -/
def pyToInt (s : String) : Option Int :=
  match s.toList with
  | [] => Option.none
  | '-' :: rest =>
      match rest with
      | [] => Option.none
      | _ => (parseDigits rest 0).map (fun n => -(n : Int))
  | '+' :: rest =>
      match rest with
      | [] => Option.none
      | _ => (parseDigits rest 0).map (fun n => (n : Int))
  | cs => (parseDigits cs 0).map (fun n => (n : Int))

/-- One subscription step `data[key]` where `key = int(k)` when `k` parses as
an int and the raw string otherwise. -/
def pyKeyGet (data : PyVal) (k : String) : Except CuratorErr PyVal :=
  match pyToInt k with
  | some i => pyIntGet data i
  | Option.none => pyDictGet data k

/-- The loop of `get_badvalue`: `value` starts as `None` and each iteration
assigns `value = data[key]` only under `if value is None`.  Python uses the
same `None` for "not yet assigned" and for a looked-up `None` value, so the
accumulator is a single `PyVal` starting at `None`: while it stays `None`,
later segments are retried against the original top-level `data` (the path is
never walked into the resolved value), and once it is non-`None` the
remaining iterations are no-ops.  A lookup failure propagates (caught by the
outer `except` of `__parse_error`). -/
def get_badvalue_loop (data : PyVal) : List String → PyVal → Except CuratorErr PyVal
  | [], value => .ok value
  | k :: rest, value =>
      match value with
      | .none =>
          match pyKeyGet data k with
          | .error e => .error e
          | .ok v => get_badvalue_loop data rest v
      | v => get_badvalue_loop data rest v

/-- `get_badvalue` from `SchemaCheck.__parse_error`: run the retry-on-None
loop over the parsed path elements; an empty path leaves the returned value
as `None`. -/
def get_badvalue (data_string : String) (data : PyVal) : Except CuratorErr PyVal :=
  get_badvalue_loop data (parsePathElements data_string) .none

/-- `SchemaCheck.__parse_error`: resolve the bad value from the last
whitespace-token of the error message; any failure (including the `[-1]` on an
empty token list) yields the marker. -/
def parseBadvalue (errStr : String) (config : PyVal) : PyVal :=
  match (pySplitWs errStr).getLast? with
  | Option.none => .str "(could not determine)"
  | some tok =>
      match get_badvalue tok config with
      | .ok v => v
      | .error _ => .str "(could not determine)"

/-- The error message format of `SchemaCheck.result`. -/
def schemaCheckMsg (test_what location : String) (badvalue : PyVal) (emsg : String) : String :=
  "Configuration: " ++ test_what ++ ": Location: " ++ location ++ ": Bad Value: \""
    ++ pyStr badvalue ++ "\", " ++ emsg ++ ". Check configuration file."

/-- `SchemaCheck.result`: apply the schema (an oracle for the external
validator); on failure raise ConfigurationError with the parsed bad value. -/
def schemaCheckResult (config : PyVal) (schemaApply : PyVal → Except SchemaErr PyVal)
    (test_what location : String) : Except CuratorErr PyVal :=
  match schemaApply config with
  | .ok v => .ok v
  | .error err =>
      let emsg := schemaErrMessage err
      .error (.configurationError (schemaCheckMsg test_what location (parseBadvalue emsg config) emsg))

/-- Follows the spec's words, for comparison with `get_badvalue`: locate the
offending value by walking the error path into `config` across ALL of its
path segments (mapping-key and sequence-index segments alike). -/
def specBadvaluePathWalk (data_string : String) (data : PyVal) : Except CuratorErr PyVal :=
  (parsePathElements data_string).foldlM pyKeyGet data

/-! ## Helper lemmas -/

theorem lookupKV_setKey_self (l : List (String × PyVal)) (k : String) (v : PyVal) :
    lookupKV (setKey l k v) k = some v := by
  induction l with
  | nil => simp [setKey, lookupKV]
  | cons hd tl ih =>
      obtain ⟨k1, v1⟩ := hd
      by_cases hk : k1 = k
      · simp [setKey, lookupKV, hk]
      · simp [setKey, lookupKV, hk, ih]

theorem lookupKV_setKey_ne (l : List (String × PyVal)) (k k1 : String) (v : PyVal)
    (h : k1 ≠ k) : lookupKV (setKey l k v) k1 = lookupKV l k1 := by
  induction l with
  | nil => simp [setKey, lookupKV, Ne.symm h]
  | cons hd tl ih =>
      obtain ⟨k2, v2⟩ := hd
      by_cases hk : k2 = k
      · subst hk
        simp [setKey, lookupKV, Ne.symm h]
      · simp [setKey, lookupKV, hk, ih]

theorem copyBodyKeys_lookup_ne {body : PyVal} :
    ∀ (keys : List String) (args args1 : List (String × PyVal)) (k : String),
      copyBodyKeys body keys args = .ok args1 → k ∉ keys →
      lookupKV args1 k = lookupKV args k := by
  intro keys
  induction keys with
  | nil =>
      intro args args1 k h _
      simp only [copyBodyKeys] at h
      cases h
      rfl
  | cons k0 rest ih =>
      intro args args1 k h hk
      have hne : k ≠ k0 := fun he => hk (he ▸ List.mem_cons_self k0 rest)
      have hrest : k ∉ rest := fun hr => hk (List.mem_cons_of_mem k0 hr)
      simp only [copyBodyKeys] at h
      split at h
      · cases h
      · split at h
        · split at h
          · cases h
          · rw [ih _ _ _ h hrest, lookupKV_setKey_ne _ _ _ _ hne]
        · exact ih _ _ _ h hrest

theorem reindexInitRemote_sets_host (ilo : IndexList) (env : RemoteEnv)
    (rb src : PyVal) (base : ReindexState) (srcIdx : PyVal) (st : ReindexState)
    (h : reindexInitRemote ilo env rb src base srcIdx = .ok st) :
    st.remote_host.isSome ∧ st.remote_port.isSome := by
  unfold reindexInitRemote at h
  repeat' split at h
  all_goals
    first
    | exact Except.noConfusion h
    | (cases h; simp)

theorem dispatch_remote_inv (ilo : IndexList) (env : RemoteEnv)
    (request_body src : PyVal) (remote migration : Bool) (mpfx msfx : String)
    (base : ReindexState) (st : ReindexState)
    (h : reindexInitDispatch ilo env request_body src remote migration mpfx msfx base = .ok st) :
    st.remote = true → st.remote_host.isSome ∧ st.remote_port.isSome := by
  unfold reindexInitDispatch at h
  repeat'
    first
    | exact Except.noConfusion h
    | split at h
  all_goals
    first
    | exact Except.noConfusion h
    | (cases h; intro hr; simp_all)
    | (intro hr; exact reindexInitRemote_sets_host _ _ _ _ _ _ _ h)
    | simp_all

theorem pyDictGet_no_attributeError (d : PyVal) (k n : String) :
    pyDictGet d k ≠ .error (.attributeError n) := by
  cases d <;> simp [pyDictGet]
  rename_i kvs
  cases lookupKV kvs k <;> simp

theorem pyContains_no_attributeError (d : PyVal) (k n : String) :
    pyContains d k ≠ .error (.attributeError n) := by
  cases d <;> simp [pyContains]

theorem getProcessedItems_trace (client : Client) (tid : PyVal) :
    (getProcessedItems client tid).1 = [.netTasksGet] := by
  unfold getProcessedItems
  split <;> rfl

theorem getProcessedItems_no_attributeError (client : Client) (tid : PyVal)
    (tr : List Effect) (e : CuratorErr) (n : String)
    (h : getProcessedItems client tid = (tr, .error e)) : e ≠ .attributeError n := by
  unfold getProcessedItems at h
  split at h
  · rename_i exc hexc
    cases h
    simp
  · rename_i td htd
    obtain ⟨h1, h2⟩ := Prod.mk.inj h
    clear h
    split at h2
    · rename_i e1 heq
      injection h2 with h3
      subst h3
      intro hT
      subst hT
      exact pyDictGet_no_attributeError _ _ _ heq
    · split at h2
      · rename_i e1 heq
        injection h2 with h3
        subst h3
        intro hT
        subst hT
        exact pyDictGet_no_attributeError _ _ _ heq
      · split at h2
        · split at h2
          · rename_i e1 heq
            injection h2 with h3
            subst h3
            intro hT
            subst hT
            exact pyContains_no_attributeError _ _ _ heq
          · split at h2
            · split at h2
              · rename_i e1 heq
                injection h2 with h3
                subst h3
                intro hT
                subst hT
                exact pyDictGet_no_attributeError _ _ _ heq
              · rename_i response heq
                intro hT
                subst hT
                exact pyDictGet_no_attributeError _ _ _ h2
            · exact fun hT => Except.noConfusion h2
        · exact fun hT => Except.noConfusion h2

/-! ## Concrete inputs reused by the witnesses -/

/-- A migration-mode request body. -/
def exampleBodyM : PyVal :=
  .dict [("source", .dict [("index", .list [.str "a", .str "b"])]),
         ("dest", .dict [("index", .str "MIGRATION")])]

/-- The state of a migration-mode action over `exampleBodyM`. -/
def exampleStateM : ReindexState :=
  { body := exampleBodyM, index_list := ⟨["a", "b"]⟩, refresh := true,
    requests_per_second := -1, slices := 1, timeout := "60s",
    wait_for_active_shards := .int 1, wfc := true, wait_interval := 9,
    max_wait := -1, mpfx := "p-", msfx := "", remote := false,
    migration := true, remote_host := Option.none, remote_port := Option.none }

/-- The wire arguments `_get_reindex_args exampleStateM "a" "p-a"` produces. -/
def exampleArgsM : PyVal :=
  .dict [("refresh", .bool true), ("requests_per_second", .int (-1)),
         ("slices", .int 1), ("timeout", .str "60s"),
         ("wait_for_active_shards", .int 1), ("wait_for_completion", .bool false),
         ("dest", .dict [("index", .str "p-a")]),
         ("source", .dict [("index", .str "a")])]

/-- The state after that call: the stored body has been written through. -/
def exampleStateM1 : ReindexState :=
  { exampleStateM with
    body := .dict [("source", .dict [("index", .str "a")]),
                   ("dest", .dict [("index", .str "p-a")])] }

/-- A non-migration action whose source list is empty. -/
def exampleStateE : ReindexState :=
  { exampleStateM with
    body := .dict [("source", .dict [("index", .list [])]),
                   ("dest", .dict [("index", .str "z")])],
    mpfx := "", migration := false }

/-- A request body using the selection sentinel. -/
def exampleBodySel : PyVal :=
  .dict [("source", .dict [("index", .str "REINDEX_SELECTION")]),
         ("dest", .dict [("index", .str "z")])]

/-- A remote environment oracle used by the witnesses. -/
def exampleEnv : RemoteEnv := ⟨fun s => .ok s, .ok (), .ok []⟩

/-- The state constructed from `exampleBodySel` over the selection ["a","b"]. -/
def exampleStateSel : ReindexState :=
  { body := .dict [("source", .dict [("index", .list [.str "a", .str "b"])]),
                   ("dest", .dict [("index", .str "z")])],
    index_list := ⟨["a", "b"]⟩, refresh := true, requests_per_second := -1,
    slices := 1, timeout := "60s", wait_for_active_shards := .int 1, wfc := true,
    wait_interval := 9, max_wait := -1, mpfx := "", msfx := "", remote := false,
    migration := false, remote_host := Option.none, remote_port := Option.none }

/-- A remote request body with a literal (non-sentinel) source index. -/
def exampleBodyR : PyVal :=
  .dict [("source", .dict [("index", .str "idx"),
                           ("remote", .dict [("host", .str "https://rhost:9200")])]),
         ("dest", .dict [("index", .str "z")])]

/-- The state constructed from `exampleBodyR`: remote, with host and port
derived from the verified URL. -/
def exampleStateR : ReindexState :=
  { body := exampleBodyR, index_list := ⟨["a", "b"]⟩, refresh := true,
    requests_per_second := -1, slices := 1, timeout := "60s",
    wait_for_active_shards := .int 1, wfc := true, wait_interval := 9,
    max_wait := -1, mpfx := "", msfx := "", remote := true, migration := false,
    remote_host := some "rhost", remote_port := some "9200" }

/-- A cluster client oracle used by the witnesses. -/
def exampleClient : Client :=
  { tasksGet := fun _ => .error (.otherExc "connection down"),
    indexExists := fun _ => false,
    aliasExists := fun _ => false,
    reindexCall := fun _ => .error (.otherExc "connection down"),
    waitResult := fun _ => .ok () }

/-- A non-migration action over `source.index = "a"`, `dest.index = "b"` that
waits for completion. -/
def exampleStateW : ReindexState :=
  { exampleStateM with
    body := .dict [("source", .dict [("index", .str "a")]),
                   ("dest", .dict [("index", .str "b")])],
    migration := false, mpfx := "" }

/-- A client whose dispatch succeeds with task id `TID` and whose wait loop
exhausts its budget. -/
def clientTimeout : Client :=
  { exampleClient with
    reindexCall := fun _ => .ok (.dict [("task", .str "TID")]),
    waitResult := fun _ => .error (.timeoutExceeded
      "Task TID did not complete within the max wait of 1 seconds.") }

/-- A reindex-task status payload with no `response` section. -/
def taskDataNoResp : PyVal :=
  .dict [("task", .dict [("action", .str "indices:data/write/reindex")])]

/-- A client whose task status has no `response` section and on which the
destination exists neither as index nor as alias. -/
def clientNoResp : Client :=
  { exampleClient with tasksGet := fun _ => .ok taskDataNoResp }

/-- A client whose task status reports zero processed items. -/
def clientZero : Client :=
  { exampleClient with
    tasksGet := fun _ => .ok
      (.dict [("task", .dict [("action", .str "indices:data/write/reindex")]),
              ("response", .dict [("total", .int 0)])]) }

theorem lookupKV_some_any (kvs : List (String × PyVal)) (k : String) (v : PyVal)
    (h : lookupKV kvs k = some v) : (kvs.any fun kv => kv.1 == k) = true := by
  induction kvs with
  | nil => exact Option.noConfusion h
  | cons hd tl ih =>
      obtain ⟨k1, v1⟩ := hd
      by_cases hk : k1 = k
      · simp [hk]
      · simp only [lookupKV] at h
        rw [if_neg (by simp [hk])] at h
        simp [List.any_cons, hk, ih h]

theorem copyBodyKeys_cons_found (kvs : List (String × PyVal)) (k : String) (v : PyVal)
    (rest : List String) (args : List (String × PyVal))
    (hlk : lookupKV kvs k = some v) :
    copyBodyKeys (.dict kvs) (k :: rest) args
      = copyBodyKeys (.dict kvs) rest (setKey args k v) := by
  simp only [copyBodyKeys, pyContains, lookupKV_some_any kvs k v hlk, if_true, pyDictGet, hlk]

theorem migrationPairs_strings (p s : String) (names : List String) :
    migrationPairs p s (names.map PyVal.str) =
      .ok (names.map fun n => (PyVal.str n, PyVal.str (p ++ n ++ s))) := by
  induction names with
  | nil => rfl
  | cons n rest ih => simp [migrationPairs, ih]

theorem isSelectedTypo_strings (names : List String) :
    isSelectedTypo (names.map PyVal.str) = decide (names = ["REINDEX_SELECTED"]) := by
  match names with
  | [] => rfl
  | [n] => simp [isSelectedTypo, pyBeqStr, beq_eq_decide]
  | _ :: _ :: _ => simp [isSelectedTypo]

/-- A configuration with a nested bad value at `config['filters'][1]`. -/
def exampleConfig9 : PyVal := .dict [("filters", .list [.int 1, .str "bad"])]

/-- A validator failure whose error path has two segments. -/
def exampleSchemaErr9 : SchemaErr :=
  ⟨["expected int for dictionary value @ data['filters'][1]"], "invalid config"⟩

/-- A validator failure whose error path starts at a missing key. -/
def exampleSchemaErr9m : SchemaErr :=
  ⟨["expected int for dictionary value @ data['missing'][0]"], "invalid config"⟩

/-- A configuration whose first path segment resolves to `None`, exercising
the retry-on-None behaviour of `get_badvalue`. -/
def exampleConfig9n : PyVal := .dict [("filters", .none)]

theorem get_badvalue_loop_fixed (data : PyVal) (rest : List String) (v : PyVal)
    (h : v ≠ .none) : get_badvalue_loop data rest v = .ok v := by
  induction rest with
  | nil => rfl
  | cons k rs ih => cases v <;> simp_all [get_badvalue_loop]

/-! ## Claim theorems -/

/-- Claim C6: for every (source, dest) pair and every value of the action's
wait_for_completion option, the wire-request arguments built by
`_get_reindex_args` contain `wait_for_completion = False`; waiting, when
requested, happens only by local polling, never on the wire. -/
theorem c6_wire_wait_for_completion_false (st : ReindexState) (source dest : PyVal)
    (args : PyVal) (st1 : ReindexState)
    (h : getReindexArgs st source dest = .ok (args, st1)) :
    pyDictGet args "wait_for_completion" = .ok (.bool false) := by
  unfold getReindexArgs at h
  dsimp only at h
  split at h
  · exact Except.noConfusion h
  rename_i args1 hcopy
  split at h
  · exact Except.noConfusion h
  rename_i destObj hdest
  split at h
  · exact Except.noConfusion h
  rename_i destObj1 hset1
  split at h
  · exact Except.noConfusion h
  rename_i srcObj hsrc
  split at h
  · exact Except.noConfusion h
  rename_i srcObj1 hset2
  cases h
  have h2 := copyBodyKeys_lookup_ne _ _ _ "wait_for_completion" hcopy (by decide)
  simp only [pyDictGet]
  rw [lookupKV_setKey_ne _ _ _ _ (by decide), lookupKV_setKey_ne _ _ _ _ (by decide), h2]
  rfl

/-- Claim C1: on a well-formed action whose coerced source list is the
non-empty, non-sentinel-typo list of names, `sources()` yields exactly the
specified expansion: in migration mode one pair
`(name, migration_prefix + name + migration_suffix)` per name in order, and in
non-migration mode the single pair of the source index as originally typed
with the destination index. -/
theorem c1_sources_expansion (st : ReindexState) (srcv destv : PyVal) (names : List String)
    (hdest : bodyDestIndex st = .ok destv)
    (hsrc : bodySourceIndex st = .ok srcv)
    (hco : ensure_list srcv = names.map PyVal.str)
    (hne : names ≠ [])
    (hts : names ≠ ["REINDEX_SELECTED"]) :
    Reindex.sources st =
      .ok (if st.migration then
             names.map (fun n => (PyVal.str n, PyVal.str (st.mpfx ++ n ++ st.msfx)))
           else [(srcv, destv)]) := by
  unfold Reindex.sources
  rw [hdest, hsrc]
  dsimp only
  rw [hco, isSelectedTypo_strings]
  have hE : (names.map PyVal.str).isEmpty = false := by
    cases names with
    | nil => exact absurd rfl hne
    | cons a b => rfl
  rw [hE, decide_eq_false hts]
  cases hm : st.migration with
  | false => simp [hm]
  | true => simp [hm, migrationPairs_strings]

/-- Witness for C1: the migration action over `exampleBodyM` expands to
exactly `[("a", "p-a"), ("b", "p-b")]`. -/
theorem c1_sources_expansion_witness :
    Reindex.sources exampleStateM =
      .ok [(PyVal.str "a", PyVal.str "p-a"), (PyVal.str "b", PyVal.str "p-b")] :=
  c1_sources_expansion exampleStateM (.list [.str "a", .str "b"]) (.str "MIGRATION")
    ["a", "b"] (by rfl) (by rfl) (by rfl) (by decide) (by decide)

/-- Claim C4: when the coerced source list is empty or equals the
sentinel-typo singleton `['REINDEX_SELECTED']`, consuming `sources()` fails
with NoIndices regardless of migration mode, and `do_action` re-raises it as
NoIndices carrying the clarified message about the source index. -/
theorem c4_empty_source_noindices (st : ReindexState) (srcv destv : PyVal)
    (hdest : bodyDestIndex st = .ok destv)
    (hsrc : bodySourceIndex st = .ok srcv)
    (hempty : ensure_list srcv = [] ∨ ensure_list srcv = [PyVal.str "REINDEX_SELECTED"]) :
    Reindex.sources st = .error (.noIndices "") ∧
      ∀ client : Client, doAction client st =
        .error (.noIndices
          "Source index must be list of actual indices. It must not be an empty list.") := by
  have hs : Reindex.sources st = .error (.noIndices "") := by
    unfold Reindex.sources
    rw [hdest, hsrc]
    dsimp only
    rcases hempty with h | h <;> rw [h] <;> rfl
  refine ⟨hs, fun client => ?_⟩
  unfold doAction
  rw [hs]

/-- Witness for C4: an action with `source.index = []` fails with NoIndices
from `sources()`, and with the clarified NoIndices from `do_action`. -/
theorem c4_empty_source_noindices_witness :
    Reindex.sources exampleStateE = .error (.noIndices "") ∧
      doAction exampleClient exampleStateE =
        .error (.noIndices
          "Source index must be list of actual indices. It must not be an empty list.") :=
  ⟨(c4_empty_source_noindices exampleStateE (.list []) (.str "z")
      (by rfl) (by rfl) (Or.inl rfl)).1,
   (c4_empty_source_noindices exampleStateE (.list []) (.str "z")
      (by rfl) (by rfl) (Or.inl rfl)).2 exampleClient⟩

/-- Claim C2: a non-remote request whose `source.index` is the literal
sentinel `REINDEX_SELECTION` has it substituted at construction with the
IndexList's indices as they are at that moment, and the resolved source stays
the same even when the (shared) IndexList is narrowed by `iterate_filters`
afterwards.  The IndexList collaborator itself is modelled from the spec. -/
theorem c2_selection_substitution_captured
    (ilo : IndexList) (bkvs skvs dkvs : List (String × PyVal)) (env : RemoteEnv)
    (refresh : Bool) (rps slices timeout : Int) (was : PyVal) (wfc : Bool)
    (max_wait wait_interval : Int) (mpfx msfx : String) (st : ReindexState)
    (hsrc : lookupKV bkvs "source" = some (.dict skvs))
    (hnr : (skvs.any fun kv => kv.1 == "remote") = false)
    (hidx : lookupKV skvs "index" = some (.str "REINDEX_SELECTION"))
    (hdst : lookupKV bkvs "dest" = some (.dict dkvs))
    (hinit : reindexInit ilo (.dict bkvs) env refresh rps slices timeout was wfc
      max_wait wait_interval mpfx msfx = .ok st) :
    bodySourceIndex st = .ok (pyStrList ilo.indices) ∧
      ∀ keep : String → Bool,
        bodySourceIndex { st with index_list := st.index_list.iterate_filters keep }
          = .ok (pyStrList ilo.indices) := by
  unfold reindexInit reindexInitDispatch at hinit
  simp only [PyVal.isDict, pyDictGet, pyContains, hsrc, hnr, hidx, hdst,
    pyBeqStr, beq_self_eq_true, Bool.not_false, Bool.and_true, Bool.true_and,
    pySet2, pySetItem, pyDictSetK] at hinit
  repeat' split at hinit
  all_goals
    first
    | exact Except.noConfusion hinit
    | (cases hinit
       refine ⟨?_, fun keep => ?_⟩ <;> simp [bodySourceIndex, pyDictGet, lookupKV_setKey_self] <;>
         done)
    | (simp_all; done)
    | (simp_all; subst_vars; simp_all; done)

/-- Witness for C2: constructing over the selection `["a", "b"]` resolves the
sentinel to `["a", "b"]`, and the resolution survives a later narrowing of the
IndexList to just `"a"`. -/
theorem c2_selection_substitution_captured_witness :
    bodySourceIndex exampleStateSel = .ok (pyStrList ["a", "b"]) ∧
      bodySourceIndex
        { exampleStateSel with
          index_list := exampleStateSel.index_list.iterate_filters (fun n => n == "a") }
        = .ok (pyStrList ["a", "b"]) :=
  ⟨(c2_selection_substitution_captured ⟨["a", "b"]⟩
      [("source", .dict [("index", .str "REINDEX_SELECTION")]),
       ("dest", .dict [("index", .str "z")])]
      [("index", .str "REINDEX_SELECTION")] [("index", .str "z")]
      exampleEnv true (-1) 1 60 (.int 1) true (-1) 9 "" "" exampleStateSel
      (by rfl) (by rfl) (by rfl) (by rfl) (by rfl)).1,
   (c2_selection_substitution_captured ⟨["a", "b"]⟩
      [("source", .dict [("index", .str "REINDEX_SELECTION")]),
       ("dest", .dict [("index", .str "z")])]
      [("index", .str "REINDEX_SELECTION")] [("index", .str "z")]
      exampleEnv true (-1) 1 60 (.int 1) true (-1) 9 "" "" exampleStateSel
      (by rfl) (by rfl) (by rfl) (by rfl) (by rfl)).2 (fun n => n == "a")⟩

/-- Claim C3: construction fails synchronously with ConfigurationError — for
every behaviour of the remote-network oracle, so before and independent of any
network call — when (a) the request body is not a mapping, (b) `dest.index` is
the literal MIGRATION with no remote descriptor and both naming options empty,
or (c) a remote descriptor is present but lacks the `host` key. -/
theorem c3_construction_fail_fast (ilo : IndexList) (refresh : Bool)
    (rps slices timeout : Int) (was : PyVal) (wfc : Bool)
    (max_wait wait_interval : Int) :
    (∀ (env : RemoteEnv) (rb : PyVal) (mpfx msfx : String), rb.isDict = false →
        reindexInit ilo rb env refresh rps slices timeout was wfc
          max_wait wait_interval mpfx msfx
          = .error (.configurationError "\"request_body\" is not of type dictionary")) ∧
    (∀ (env : RemoteEnv) (bkvs skvs dkvs : List (String × PyVal)) (srcIdx : PyVal),
        lookupKV bkvs "source" = some (.dict skvs) →
        (skvs.any fun kv => kv.1 == "remote") = false →
        lookupKV skvs "index" = some srcIdx →
        lookupKV bkvs "dest" = some (.dict dkvs) →
        lookupKV dkvs "index" = some (.str "MIGRATION") →
        reindexInit ilo (.dict bkvs) env refresh rps slices timeout was wfc
          max_wait wait_interval "" ""
          = .error (.configurationError
            "MIGRATION can only be used locally with one or both of migration_prefix or migration_suffix.")) ∧
    (∀ (env : RemoteEnv) (bkvs skvs dkvs rkvs : List (String × PyVal))
        (srcIdx destIdx : PyVal) (mpfx msfx : String),
        lookupKV bkvs "source" = some (.dict skvs) →
        (skvs.any fun kv => kv.1 == "remote") = true →
        lookupKV skvs "index" = some srcIdx →
        lookupKV skvs "remote" = some (.dict rkvs) →
        (rkvs.any fun kv => kv.1 == "host") = false →
        lookupKV bkvs "dest" = some (.dict dkvs) →
        lookupKV dkvs "index" = some destIdx →
        reindexInit ilo (.dict bkvs) env refresh rps slices timeout was wfc
          max_wait wait_interval mpfx msfx
          = .error (.configurationError "Missing remote \"host\"")) := by
  refine ⟨?_, ?_, ?_⟩
  · intro env rb mpfx msfx hnd
    unfold reindexInit
    simp [hnd]
  · intro env bkvs skvs dkvs srcIdx hsrc hnr hidx hdst hmig
    unfold reindexInit
    simp [reindexInitDispatch, PyVal.isDict, pyDictGet, pyContains, hsrc, hnr, hidx, hdst,
      hmig, pyBeqStr]
  · intro env bkvs skvs dkvs rkvs srcIdx destIdx mpfx msfx hsrc hr hidx hrd hnh hdst hdidx
    unfold reindexInit
    simp [reindexInitDispatch, reindexInitRemote, PyVal.isDict, pyDictGet, pyContains, hsrc,
      hr, hidx, hrd, hnh, hdst, hdidx]

/-- Witness for C3: the three concrete failing constructions. -/
theorem c3_construction_fail_fast_witness :
    reindexInit ⟨["a"]⟩ (.list []) exampleEnv true (-1) 1 60 (.int 1) true (-1) 9 "" ""
        = .error (.configurationError "\"request_body\" is not of type dictionary") ∧
    reindexInit ⟨["a"]⟩ exampleBodyM exampleEnv true (-1) 1 60 (.int 1) true (-1) 9 "" ""
        = .error (.configurationError
          "MIGRATION can only be used locally with one or both of migration_prefix or migration_suffix.") ∧
    reindexInit ⟨["a"]⟩
        (.dict [("source", .dict [("index", .str "idx"),
                                  ("remote", .dict [("username", .str "u")])]),
                ("dest", .dict [("index", .str "z")])])
        exampleEnv true (-1) 1 60 (.int 1) true (-1) 9 "" ""
        = .error (.configurationError "Missing remote \"host\"") :=
  ⟨(c3_construction_fail_fast ⟨["a"]⟩ true (-1) 1 60 (.int 1) true (-1) 9).1
      exampleEnv (.list []) "" "" (by rfl),
   (c3_construction_fail_fast ⟨["a"]⟩ true (-1) 1 60 (.int 1) true (-1) 9).2.1
      exampleEnv
      [("source", .dict [("index", .list [.str "a", .str "b"])]),
       ("dest", .dict [("index", .str "MIGRATION")])]
      [("index", .list [.str "a", .str "b"])] [("index", .str "MIGRATION")]
      (.list [.str "a", .str "b"])
      (by rfl) (by rfl) (by rfl) (by rfl) (by rfl),
   (c3_construction_fail_fast ⟨["a"]⟩ true (-1) 1 60 (.int 1) true (-1) 9).2.2
      exampleEnv
      [("source", .dict [("index", .str "idx"), ("remote", .dict [("username", .str "u")])]),
       ("dest", .dict [("index", .str "z")])]
      [("index", .str "idx"), ("remote", .dict [("username", .str "u")])]
      [("index", .str "z")] [("username", .str "u")]
      (.str "idx") (.str "z") "" ""
      (by rfl) (by rfl) (by rfl) (by rfl) (by rfl) (by rfl) (by rfl)⟩

/-- Claim C5: in the post-run quick check, a task payload without a `response`
section resolves the processed count to `-1`; the destination-existence check
is skipped — with only an informational log — exactly when the count is `0`;
for every other count (including `-1`) both existence queries execute, and
when the destination exists neither as index nor alias the check fails with
FailedExecution.  The failure conclusion covers remote actions as well: its
only extra hypothesis is the invariant of every successfully constructed
action (claim C10) that a true remote flag comes with defined
`remote_host`/`remote_port` attributes. -/
theorem c5_post_run_quick_check (client : Client) (st : ReindexState)
    (name task_id : PyVal) :
    (∀ td task act, client.tasksGet task_id = .ok td →
        pyDictGet td "task" = .ok task → pyDictGet task "action" = .ok act →
        pyContains td "response" = .ok false →
        (getProcessedItems client task_id).2 = .ok (.int (-1))) ∧
    (∀ tr1, getProcessedItems client task_id = (tr1, .ok (.int 0)) →
        postRunQuickCheck client st name task_id =
          (tr1 ++ [.logInfo ("No items were processed. Will not check if target index \""
            ++ pyStr name ++ "\" exists")], .ok ())) ∧
    (∀ tr1 c, getProcessedItems client task_id = (tr1, .ok c) → pyEqZero c = false →
        (Effect.netIndexExists (pyStr name) ∈ (postRunQuickCheck client st name task_id).1 ∧
         Effect.netAliasExists (pyStr name) ∈ (postRunQuickCheck client st name task_id).1) ∧
        (client.indexExists name = false → client.aliasExists name = false →
         (st.remote = true → st.remote_host.isSome ∧ st.remote_port.isSome) →
         (postRunQuickCheck client st name task_id).2 =
           .error (.failedExecution ("Reindex failed. The index or alias identified by \""
             ++ pyStr name ++ "\" was not found.")))) := by
  refine ⟨?_, ?_, ?_⟩
  · intro td task act h1 h2 h3 h4
    unfold getProcessedItems
    rw [h1]
    dsimp only
    rw [h2]
    dsimp only
    rw [h3]
    dsimp only
    cases hb : pyBeqStr act "indices:data/write/reindex" <;> simp [hb, h4]
  · intro tr1 h1
    unfold postRunQuickCheck
    rw [h1]
    dsimp only
    simp [pyEqZero]
  · intro tr1 c h1 hc
    unfold postRunQuickCheck
    rw [h1]
    dsimp only
    rw [hc]
    constructor
    · cases hf : (!client.indexExists name && !client.aliasExists name) <;>
        cases hr : st.remote <;>
        simp [hf, hr] <;>
        cases st.remote_host <;> cases st.remote_port <;> simp
    · intro hie hae hattr
      cases hr : st.remote with
      | false => simp [hie, hae, hr]
      | true =>
          obtain ⟨hh, hp⟩ := hattr hr
          obtain ⟨vh, hOh⟩ := Option.isSome_iff_exists.mp hh
          obtain ⟨vp, hOp⟩ := Option.isSome_iff_exists.mp hp
          simp [hie, hae, hr, hOh, hOp]

/-- Witness for C5: concrete task payloads exercising the three branches, the
missing-destination failure both for a local and for a remote action. -/
theorem c5_post_run_quick_check_witness :
    (getProcessedItems clientNoResp (.str "T")).2 = .ok (.int (-1)) ∧
    postRunQuickCheck clientZero exampleStateE (.str "dest1") (.str "T") =
      ([.netTasksGet, .logInfo "No items were processed. Will not check if target index \"dest1\" exists"], .ok ()) ∧
    (postRunQuickCheck clientNoResp exampleStateE (.str "dest1") (.str "T")).2 =
      .error (.failedExecution "Reindex failed. The index or alias identified by \"dest1\" was not found.") ∧
    (postRunQuickCheck clientNoResp exampleStateR (.str "dest1") (.str "T")).2 =
      .error (.failedExecution "Reindex failed. The index or alias identified by \"dest1\" was not found.") :=
  ⟨(c5_post_run_quick_check clientNoResp exampleStateE (.str "dest1") (.str "T")).1
      taskDataNoResp (.dict [("action", .str "indices:data/write/reindex")])
      (.str "indices:data/write/reindex") (by rfl) (by rfl) (by rfl) (by rfl),
   (c5_post_run_quick_check clientZero exampleStateE (.str "dest1") (.str "T")).2.1
      [.netTasksGet] (by rfl),
   ((c5_post_run_quick_check clientNoResp exampleStateE (.str "dest1") (.str "T")).2.2
      [.netTasksGet] (.int (-1)) (by rfl) (by rfl)).2 (by rfl) (by rfl)
      (fun h => Bool.noConfusion h),
   ((c5_post_run_quick_check clientNoResp exampleStateR (.str "dest1") (.str "T")).2.2
      [.netTasksGet] (.int (-1)) (by rfl) (by rfl)).2 (by rfl) (by rfl)
      (fun _ => ⟨by rfl, by rfl⟩)⟩

/-- Counterexample to claim C7 as stated: `_get_reindex_args` copies
`self.body['dest']` and `self.body['source']` by reference and then assigns
their `'index'` entries, so it mutates the stored body — after building the
wire arguments for the pair `("a", "p-a")` the stored body's `dest.index` is
`"p-a"`, no longer `"MIGRATION"`, and re-deriving `sources()` yields a
different sequence. -/
theorem c7_body_immutable_counterexample :
    getReindexArgs exampleStateM (.str "a") (.str "p-a") = .ok (exampleArgsM, exampleStateM1) ∧
    bodyDestIndex exampleStateM = .ok (.str "MIGRATION") ∧
    bodyDestIndex exampleStateM1 = .ok (.str "p-a") ∧
    (Except.ok (PyVal.str "MIGRATION") : Except CuratorErr PyVal) ≠ .ok (.str "p-a") ∧
    Reindex.sources exampleStateM =
      .ok [(PyVal.str "a", PyVal.str "p-a"), (PyVal.str "b", PyVal.str "p-b")] ∧
    Reindex.sources exampleStateM1 = .ok [(PyVal.str "a", PyVal.str "p-a")] ∧
    (Except.ok [(PyVal.str "a", PyVal.str "p-a"), (PyVal.str "b", PyVal.str "p-b")]
        : Except CuratorErr (List (PyVal × PyVal)))
      ≠ .ok [(PyVal.str "a", PyVal.str "p-a")] :=
  ⟨rfl, rfl, rfl, by simp, rfl, rfl, by simp⟩

/-- Claim C7 as amended: `_get_request_body` leaves the action state (hence
the stored body) unchanged, but `_get_reindex_args` mutates the stored body
exactly at `source.index` and `dest.index` — which it sets to the pair's
values — leaving every other body key and every other instance variable
unchanged; `sources()` stays a pure function of the stored body. -/
theorem c7_body_mutation_scope (st : ReindexState) (source dest : PyVal)
    (bkvs skvs dkvs : List (String × PyVal))
    (hb : st.body = .dict bkvs)
    (hs : lookupKV bkvs "source" = some (.dict skvs))
    (hd : lookupKV bkvs "dest" = some (.dict dkvs)) :
    (∀ b st1, getRequestBody st source dest = .ok (b, st1) → st1 = st) ∧
    (∀ args st1, getReindexArgs st source dest = .ok (args, st1) →
        bodySourceIndex st1 = .ok source ∧
        bodyDestIndex st1 = .ok dest ∧
        (∀ k, k ≠ "source" → k ≠ "dest" →
          pyDictGet st1.body k = pyDictGet st.body k) ∧
        st1.index_list = st.index_list ∧ st1.wfc = st.wfc ∧
        st1.migration = st.migration ∧ st1.remote = st.remote ∧
        st1.mpfx = st.mpfx ∧ st1.msfx = st.msfx) := by
  constructor
  · intro b st1 h
    unfold getRequestBody at h
    split at h
    · exact Except.noConfusion h
    split at h
    · exact Except.noConfusion h
    cases h
    rfl
  · intro args st1 h
    unfold getReindexArgs at h
    rw [hb] at h
    dsimp only at h
    rw [copyBodyKeys_cons_found _ _ _ _ _ hd, copyBodyKeys_cons_found _ _ _ _ _ hs] at h
    split at h
    · exact Except.noConfusion h
    rename_i args1 hcopy
    have hd1 : lookupKV args1 "dest" = some (.dict dkvs) := by
      rw [copyBodyKeys_lookup_ne _ _ _ _ hcopy (by decide),
        lookupKV_setKey_ne _ _ _ _ (by decide), lookupKV_setKey_self]
    have hs1 : lookupKV args1 "source" = some (.dict skvs) := by
      rw [copyBodyKeys_lookup_ne _ _ _ _ hcopy (by decide), lookupKV_setKey_self]
    rw [hd1] at h
    simp only [pySetItem, pyDictSetK] at h
    rw [lookupKV_setKey_ne _ _ _ _ (by decide), hs1] at h
    cases h
    refine ⟨?_, ?_, ?_, rfl, rfl, rfl, rfl, rfl, rfl⟩
    · simp [bodySourceIndex, pyDictGet, hb, lookupKV_setKey_self]
    · simp [bodyDestIndex, pyDictGet, hb, lookupKV_setKey_self,
        lookupKV_setKey_ne _ "source" "dest" _ (by decide)]
    · intro k hks hkd
      simp [pyDictGet, hb, lookupKV_setKey_ne _ _ _ _ hks,
        lookupKV_setKey_ne _ _ _ _ hkd]

/-- Witness for the amended C7 at the concrete migration action. -/
theorem c7_body_mutation_scope_witness :
    bodySourceIndex exampleStateM1 = .ok (.str "a") ∧
    bodyDestIndex exampleStateM1 = .ok (.str "p-a") ∧
    pyDictGet exampleStateM1.body "extra" = pyDictGet exampleStateM.body "extra" :=
  let hmain := (c7_body_mutation_scope exampleStateM (.str "a") (.str "p-a")
    [("source", .dict [("index", .list [.str "a", .str "b"])]),
     ("dest", .dict [("index", .str "MIGRATION")])]
    [("index", .list [.str "a", .str "b"])] [("index", .str "MIGRATION")]
    (by rfl) (by rfl) (by rfl)).2 exampleArgsM exampleStateM1 (by rfl)
  ⟨hmain.1, hmain.2.1, hmain.2.2.1 "extra" (by decide) (by decide)⟩

/-- Counterexample to claim C8 as stated: when the wait budget elapses during
`do_action`, the timeout raised by `wait_for_it` is caught by the broad
except-Exception clause and `report_failure` re-raises it as FailedExecution,
so the caller sees FailedExecution, not the distinct TimeoutExceeded.
(`wait_for_it` and `report_failure` are repository code not under src/,
modelled from the spec.) -/
theorem c8_timeout_distinct_counterexample :
    doAction clientTimeout exampleStateW =
      .error (.failedExecution
        ("Exception encountered.  Rerun with loglevel DEBUG and/or check Elasticsearch logs for more information. Exception: "
          ++ "Task TID did not complete within the max wait of 1 seconds.")) ∧
    doAction clientTimeout exampleStateW ≠
      .error (.timeoutExceeded
        "Task TID did not complete within the max wait of 1 seconds.") :=
  ⟨rfl, by
    rw [show doAction clientTimeout exampleStateW =
      .error (.failedExecution
        ("Exception encountered.  Rerun with loglevel DEBUG and/or check Elasticsearch logs for more information. Exception: "
          ++ "Task TID did not complete within the max wait of 1 seconds.")) from rfl]
    simp⟩

/-- Claim C8 as amended: when the wait budget elapses before completion, the
timeout is funnelled through the broad catch of `do_action` and surfaces as
FailedExecution wrapping the timeout's message — only NoIndices escapes the
wrap — so the caller does not receive the TimeoutExceeded condition itself. -/
theorem c8_timeout_wrapped (client : Client) (st : ReindexState)
    (source dest b args resp task_id : PyVal) (st1 st2 : ReindexState)
    (rest : List (PyVal × PyVal)) (m : String)
    (h1 : Reindex.sources st = .ok ((source, dest) :: rest))
    (h2 : getRequestBody st source dest = .ok (b, st2))
    (h3 : getReindexArgs st source dest = .ok (args, st1))
    (h4 : client.reindexCall args = .ok resp)
    (h5 : pyDictGet resp "task" = .ok task_id)
    (h6 : st.wfc = true)
    (h7 : client.waitResult task_id = .error (.timeoutExceeded m)) :
    doAction client st = .error (report_failure (.timeoutExceeded m)) ∧
    doAction client st ≠ .error (.timeoutExceeded m) := by
  have hrun : doAction client st = .error (report_failure (.timeoutExceeded m)) := by
    unfold doAction
    rw [h1]
    dsimp only
    unfold doActionLoop
    rw [h2]
    try dsimp only
    rw [h3]
    try dsimp only
    rw [h4]
    try dsimp only
    rw [h5]
    try dsimp only
    rw [h6]
    try dsimp only
    unfold wait_for_it
    rw [h7]
    try rfl
  refine ⟨hrun, ?_⟩
  rw [hrun]
  simp [report_failure]

/-- Witness for the amended C8 at the concrete timed-out run. -/
theorem c8_timeout_wrapped_witness :
    doAction clientTimeout exampleStateW =
      .error (report_failure (.timeoutExceeded
        "Task TID did not complete within the max wait of 1 seconds.")) ∧
    doAction clientTimeout exampleStateW ≠
      .error (.timeoutExceeded
        "Task TID did not complete within the max wait of 1 seconds.") :=
  c8_timeout_wrapped clientTimeout exampleStateW
    (.str "a") (.str "b")
    (.dict [("source", .dict [("index", .str "a")]), ("dest", .dict [("index", .str "b")])])
    (.dict [("refresh", .bool true), ("requests_per_second", .int (-1)),
            ("slices", .int 1), ("timeout", .str "60s"),
            ("wait_for_active_shards", .int 1), ("wait_for_completion", .bool false),
            ("dest", .dict [("index", .str "b")]),
            ("source", .dict [("index", .str "a")])])
    (.dict [("task", .str "TID")]) (.str "TID")
    { exampleStateW with
      body := .dict [("source", .dict [("index", .str "a")]),
                     ("dest", .dict [("index", .str "b")])] }
    exampleStateW [] "Task TID did not complete within the max wait of 1 seconds."
    (by rfl) (by rfl) (by rfl) (by rfl) (by rfl) (by rfl) (by rfl)

/-- Claim C10: on every successfully constructed action, a true remote flag
implies the `remote_host` and `remote_port` attributes are defined (derived
from the verified remote host URL), so the remote-diagnostic branch of
`_post_run_quick_check` can never fail with a missing-attribute error; and
when the remote flag is false that branch is never entered (no remote-hint
log ever appears in the trace). -/
theorem c10_remote_attrs_defined (ilo : IndexList) (rb : PyVal) (env : RemoteEnv)
    (refresh : Bool) (rps slices timeout : Int) (was : PyVal) (wfc : Bool)
    (max_wait wait_interval : Int) (mpfx msfx : String) (st : ReindexState)
    (hinit : reindexInit ilo rb env refresh rps slices timeout was wfc
      max_wait wait_interval mpfx msfx = .ok st) :
    (st.remote = true → st.remote_host.isSome ∧ st.remote_port.isSome) ∧
    (∀ (client : Client) (name task_id : PyVal),
        (postRunQuickCheck client st name task_id).2 ≠ .error (.attributeError "remote_host")) ∧
    (st.remote = false → ∀ (client : Client) (name task_id : PyVal) (h1 p1 : String),
        Effect.logErrorRemoteHint h1 p1 ∉ (postRunQuickCheck client st name task_id).1) := by
  have hmain : st.remote = true → st.remote_host.isSome ∧ st.remote_port.isSome := by
    unfold reindexInit at hinit
    repeat'
      first
      | exact Except.noConfusion hinit
      | split at hinit
    all_goals
      first
      | exact Except.noConfusion hinit
      | exact dispatch_remote_inv _ _ _ _ _ _ _ _ _ _ hinit
  refine ⟨hmain, ?_, ?_⟩
  · intro client name task_id hcontra
    rcases hg : getProcessedItems client task_id with ⟨tr, r⟩
    unfold postRunQuickCheck at hcontra
    rw [hg] at hcontra
    dsimp only at hcontra
    cases r with
    | error e =>
        dsimp only at hcontra
        injection hcontra with h3
        exact absurd h3 (getProcessedItems_no_attributeError client task_id tr e "remote_host" hg)
    | ok processed =>
        dsimp only at hcontra
        split at hcontra
        · exact Except.noConfusion hcontra
        split at hcontra
        · split at hcontra
          · rename_i hrem
            obtain ⟨hh, hp⟩ := hmain hrem
            split at hcontra
            · injection hcontra with h3
              exact CuratorErr.noConfusion h3
            · rename_i hopt
              rcases hOh : st.remote_host with _ | vh
              · rw [hOh] at hh
                exact Bool.noConfusion hh
              rcases hOp : st.remote_port with _ | vp
              · rw [hOp] at hp
                exact Bool.noConfusion hp
              exact hopt vh vp hOh hOp
          · injection hcontra with h3
            exact CuratorErr.noConfusion h3
        · exact Except.noConfusion hcontra
  · intro hrem client name task_id h1 p1
    rcases hg : getProcessedItems client task_id with ⟨tr, r⟩
    have htr : tr = [.netTasksGet] := by
      have h0 := getProcessedItems_trace client task_id
      rw [hg] at h0
      exact h0
    unfold postRunQuickCheck
    rw [hg]
    dsimp only
    cases r with
    | error e =>
        subst htr
        simp
    | ok processed =>
        dsimp only
        split
        · subst htr
          simp
        split
        · rw [hrem]
          subst htr
          simp
        · subst htr
          simp

/-- Witness for C10: the concrete remote construction defines host and port,
its quick check never fails with a missing attribute, and a concrete
non-remote action never logs the remote hint. -/
theorem c10_remote_attrs_defined_witness :
    (exampleStateR.remote_host.isSome ∧ exampleStateR.remote_port.isSome) ∧
    (postRunQuickCheck exampleClient exampleStateR (.str "d") (.str "T")).2 ≠
      .error (.attributeError "remote_host") ∧
    Effect.logErrorRemoteHint "rhost" "9200" ∉
      (postRunQuickCheck exampleClient exampleStateSel (.str "d") (.str "T")).1 :=
  ⟨(c10_remote_attrs_defined ⟨["a", "b"]⟩ exampleBodyR exampleEnv true (-1) 1 60
      (.int 1) true (-1) 9 "" "" exampleStateR (by rfl)).1 (by rfl),
   (c10_remote_attrs_defined ⟨["a", "b"]⟩ exampleBodyR exampleEnv true (-1) 1 60
      (.int 1) true (-1) 9 "" "" exampleStateR (by rfl)).2.1
      exampleClient (.str "d") (.str "T"),
   (c10_remote_attrs_defined ⟨["a", "b"]⟩ exampleBodySel exampleEnv true (-1) 1 60
      (.int 1) true (-1) 9 "" "" exampleStateSel (by rfl)).2.2 (by rfl)
      exampleClient (.str "d") (.str "T") "rhost" "9200"⟩

/-- Counterexample to claim C9 as stated: `get_badvalue` assigns only under
`if value is None` and always looks segments up in the top-level config, so
it never walks INTO a resolved value — for the two-segment path
`data['filters'][1]`, whose first segment resolves to the non-None list
`config['filters']`, the reported bad value is that whole list, not the
walked value `config['filters'][1]`, and the raised message carries the
former. -/
theorem c9_badvalue_walk_counterexample :
    parseBadvalue "expected int for dictionary value @ data['filters'][1]" exampleConfig9
      = .list [.int 1, .str "bad"] ∧
    specBadvaluePathWalk "data['filters'][1]" exampleConfig9 = .ok (.str "bad") ∧
    (PyVal.list [.int 1, .str "bad"]) ≠ .str "bad" ∧
    schemaCheckResult exampleConfig9 (fun _ => .error exampleSchemaErr9) "filters" "some.location"
      = .error (.configurationError
        "Configuration: filters: Location: some.location: Bad Value: \"[1, 'bad']\", expected int for dictionary value @ data['filters'][1]. Check configuration file.") :=
  ⟨rfl, rfl, by simp, rfl⟩

/-- Claim C9 as amended: on validation failure `SchemaCheck.result` raises
ConfigurationError whose message includes `what`, `location`, the underlying
validator's message and the resolved bad value, where the bad value is found
by looking the error path's segments (mapping-key and sequence-index alike)
up one at a time against the original top-level `config` under the loop's
value-is-None guard: the first segment whose lookup yields a non-None value
is reported and every later segment is ignored — the path is never walked
INTO the resolved value — while a segment whose lookup yields None leaves the
remaining segments to be retried against the same top-level `config`; when a
performed lookup raises, or the message has no last token, the reported value
is "(could not determine)". -/
theorem c9_schemacheck_badvalue_semantics
    (config : PyVal) (schemaApply : PyVal → Except SchemaErr PyVal)
    (test_what location : String) (err : SchemaErr)
    (happ : schemaApply config = .error err) :
    schemaCheckResult config schemaApply test_what location =
      .error (.configurationError
        (schemaCheckMsg test_what location (parseBadvalue (schemaErrMessage err) config)
          (schemaErrMessage err))) ∧
    (∀ tok k rest v,
        (pySplitWs (schemaErrMessage err)).getLast? = some tok →
        parsePathElements tok = k :: rest →
        pyKeyGet config k = .ok v → v ≠ .none →
        parseBadvalue (schemaErrMessage err) config = v) ∧
    (∀ tok k rest,
        (pySplitWs (schemaErrMessage err)).getLast? = some tok →
        parsePathElements tok = k :: rest →
        pyKeyGet config k = .ok .none →
        parseBadvalue (schemaErrMessage err) config =
          (match get_badvalue_loop config rest .none with
           | .ok v => v
           | .error _ => .str "(could not determine)")) ∧
    (∀ tok k rest e,
        (pySplitWs (schemaErrMessage err)).getLast? = some tok →
        parsePathElements tok = k :: rest →
        pyKeyGet config k = .error e →
        parseBadvalue (schemaErrMessage err) config = .str "(could not determine)") ∧
    ((pySplitWs (schemaErrMessage err)).getLast? = Option.none →
        parseBadvalue (schemaErrMessage err) config = .str "(could not determine)") := by
  refine ⟨?_, ?_, ?_, ?_, ?_⟩
  · unfold schemaCheckResult
    rw [happ]
  · intro tok k rest v h1 h2 h3 h4
    unfold parseBadvalue
    rw [h1]
    dsimp only
    unfold get_badvalue
    rw [h2]
    simp only [get_badvalue_loop]
    rw [h3]
    dsimp only
    rw [get_badvalue_loop_fixed config rest v h4]
  · intro tok k rest h1 h2 h3
    unfold parseBadvalue
    rw [h1]
    dsimp only
    unfold get_badvalue
    rw [h2]
    simp only [get_badvalue_loop]
    rw [h3]
  · intro tok k rest e h1 h2 h3
    unfold parseBadvalue
    rw [h1]
    dsimp only
    unfold get_badvalue
    rw [h2]
    simp only [get_badvalue_loop]
    rw [h3]
  · intro h1
    unfold parseBadvalue
    rw [h1]

/-- Witness for the amended C9 at concrete validator failures: the raised
error with its fixed message format, a non-None first segment stopping the
walk, a first segment resolving to None whose retried next segment raises,
and a first segment that raises directly. -/
theorem c9_schemacheck_badvalue_semantics_witness :
    schemaCheckResult exampleConfig9 (fun _ => .error exampleSchemaErr9) "filters" "loc"
      = .error (.configurationError
        (schemaCheckMsg "filters" "loc"
          (parseBadvalue (schemaErrMessage exampleSchemaErr9) exampleConfig9)
          (schemaErrMessage exampleSchemaErr9))) ∧
    parseBadvalue (schemaErrMessage exampleSchemaErr9) exampleConfig9
      = .list [.int 1, .str "bad"] ∧
    parseBadvalue (schemaErrMessage exampleSchemaErr9) exampleConfig9n
      = .str "(could not determine)" ∧
    parseBadvalue (schemaErrMessage exampleSchemaErr9m) exampleConfig9
      = .str "(could not determine)" :=
  ⟨(c9_schemacheck_badvalue_semantics exampleConfig9 (fun _ => .error exampleSchemaErr9)
      "filters" "loc" exampleSchemaErr9 (by rfl)).1,
   (c9_schemacheck_badvalue_semantics exampleConfig9 (fun _ => .error exampleSchemaErr9)
      "filters" "loc" exampleSchemaErr9 (by rfl)).2.1
      "data['filters'][1]" "filters" ["1"] (.list [.int 1, .str "bad"])
      (by rfl) (by rfl) (by rfl) (by simp),
   (c9_schemacheck_badvalue_semantics exampleConfig9n (fun _ => .error exampleSchemaErr9)
      "filters" "loc" exampleSchemaErr9 (by rfl)).2.2.1
      "data['filters'][1]" "filters" ["1"]
      (by rfl) (by rfl) (by rfl),
   (c9_schemacheck_badvalue_semantics exampleConfig9 (fun _ => .error exampleSchemaErr9m)
      "filters" "loc" exampleSchemaErr9m (by rfl)).2.2.2.1
      "data['missing'][0]" "missing" ["0"] (.keyError "missing")
      (by rfl) (by rfl) (by rfl)⟩

/-- Witness for C6: the wire arguments of a concrete migration pair carry
`wait_for_completion = False` although the action's own option is `True`. -/
theorem c6_wire_wait_for_completion_false_witness :
    pyDictGet exampleArgsM "wait_for_completion" = .ok (.bool false) :=
  c6_wire_wait_for_completion_false exampleStateM (.str "a") (.str "p-a")
    exampleArgsM exampleStateM1 (by rfl)

end Curator
